import Mathlib

/-!
Shallow embedding of the benchmarking core of
`samples/tutorials/SimpleTriangle/jni/Native.cpp` (OpenGL ES SDK for
Android, SimpleTriangle benchmark variant).

The embedded parts are:

* the per-frame benchmark driver `renderFrame` (source lines 220-466):
  the cyclic step selector `s_Step`, the ten timed draw scenarios, the
  per-scenario sample buffers `s_Timings*`, and the statistics flush
  guarded by `s_StatCount`;
* the one-time graphics setup `setupGraphics` (lines 168-193) together
  with its helpers `loadShader` (lines 72-106) and `createProgram`
  (lines 110-159), embedded over an abstract GL-driver oracle.

Timing measurements are nondeterministic inputs of the environment: each
frame receives the integer microsecond durations that the monotonic
clock would report for the timed regions of that frame (`d1` for the
first timed region, `d2` for the second timed region, which only the
`s_Step = 0` frame uses).  GL draw calls have no observable effect on
the embedded state except for the pieces the source itself reads back
or toggles: the depth/stencil enable flags and the depth/stencil
function registers.  Log output is modelled as a list of emitted lines.
-/

/-! ### GL constants used by the source -/

def GL_EQUAL : Nat := 0x0202
def GL_NOTEQUAL : Nat := 0x0205
def GL_LESS : Nat := 0x0201
def GL_ALWAYS : Nat := 0x0207
def GL_INCR_WRAP : Nat := 0x8507
def GL_DECR_WRAP : Nat := 0x8508
def GL_VERTEX_SHADER : Nat := 0x8B31
def GL_FRAGMENT_SHADER : Nat := 0x8B30

/-! ### Constants of the benchmark (source lines 207, 222) -/

/-- `k_MaxStatCount` (line 207): capacity of every sample buffer. -/
def k_MaxStatCount : Nat := 100

/-- `k_Instances` (line 222): number of triangle instances drawn per scenario. -/
def k_Instances : Nat := 100

/-- The modulus of `s_Step = (s_Step + 1) % 10` (line 465). -/
def cycleLength : Nat := 10

/-! ### Benchmark driver state -/

/-- The mutable globals of the benchmark driver (lines 204-218) plus the
GL fixed-function state the driver toggles (depth/stencil test enable
and comparison functions) and the log sink.  A log line is a list of
`(key, value)` pairs, mirroring the `LOGI` format string of line 439. -/
structure BenchState where
  s_Step : Nat
  s_StatCount : Nat
  s_TimingsO : List Int
  s_TimingsOCP : List Int
  s_TimingsSMSR : List Int
  s_TimingsSMDR : List Int
  s_TimingsDM : List Int
  s_TimingsSMSRScissors : List Int
  s_TimingsSMSRColor : List Int
  s_TimingsSMSRDepth : List Int
  s_TimingsSMSRStencil : List Int
  s_TimingsSMSRShader : List Int
  log : List (List (String × Int))
  depthTestEnabled : Bool
  stencilTestEnabled : Bool
  depthFunc : Nat
  stencilFunc : Nat × Nat × Nat
deriving Repr, DecidableEq

/-- The ten sample buffers, in source declaration order (lines 209-218). -/
def buffers (s : BenchState) : List (List Int) :=
  [s.s_TimingsO, s.s_TimingsOCP, s.s_TimingsSMSR, s.s_TimingsSMDR,
   s.s_TimingsDM, s.s_TimingsSMSRScissors, s.s_TimingsSMSRColor,
   s.s_TimingsSMSRDepth, s.s_TimingsSMSRStencil, s.s_TimingsSMSRShader]

/-- Process start: `s_Step = 0`, `s_StatCount = 0`, all buffers empty,
no log output yet, GL depth/stencil tests at their defaults (disabled,
`GL_LESS` / `GL_ALWAYS`). -/
def initState : BenchState :=
  { s_Step := 0
    s_StatCount := 0
    s_TimingsO := []
    s_TimingsOCP := []
    s_TimingsSMSR := []
    s_TimingsSMDR := []
    s_TimingsDM := []
    s_TimingsSMSRScissors := []
    s_TimingsSMSRColor := []
    s_TimingsSMSRDepth := []
    s_TimingsSMSRStencil := []
    s_TimingsSMSRShader := []
    log := []
    depthTestEnabled := false
    stencilTestEnabled := false
    depthFunc := GL_LESS
    stencilFunc := (GL_ALWAYS, 0, 0xFFFFFFFF) }

/-! ### The timed scenario branches of `renderFrame`

Each `if (s_Step == v) { ... }` block of lines 279-422 becomes one
function.  `glVertexAttribPointer` / `glDrawElements` / `glScissor` /
`glUniform4f` / `glUseProgram` calls touch no state the source ever
reads back, so they leave the embedded state unchanged; the
`push_back` of the measured duration and the depth/stencil state
toggles are the observable effects. -/

/-- Lines 279-287, `// Draw Once`: guarded by `s_Step == 0`, appends the
measured duration to `s_TimingsO`. -/
def branchO (d : Int) (s : BenchState) : BenchState :=
  if s.s_Step = 0 then { s with s_TimingsO := s.s_TimingsO ++ [d] } else s

/-- Lines 289-299, `// Draw Once, Re-Copy Indices`: also guarded by
`s_Step == 0` (the same guard as `branchO`), appends to `s_TimingsOCP`. -/
def branchOCP (d : Int) (s : BenchState) : BenchState :=
  if s.s_Step = 0 then { s with s_TimingsOCP := s.s_TimingsOCP ++ [d] } else s

/-- Lines 301-312, `// Draw Same Mesh, Same Range`: `s_Step == 1`. -/
def branchSMSR (d : Int) (s : BenchState) : BenchState :=
  if s.s_Step = 1 then { s with s_TimingsSMSR := s.s_TimingsSMSR ++ [d] } else s

/-- Lines 314-324, `// Draw Same Mesh, Different Ranges`: `s_Step == 2`. -/
def branchSMDR (d : Int) (s : BenchState) : BenchState :=
  if s.s_Step = 2 then { s with s_TimingsSMDR := s.s_TimingsSMDR ++ [d] } else s

/-- Lines 326-337, `// Draw Different Meshes`: `s_Step == 3`. -/
def branchDM (d : Int) (s : BenchState) : BenchState :=
  if s.s_Step = 3 then { s with s_TimingsDM := s.s_TimingsDM ++ [d] } else s

/-- Lines 339-352, `// ... Scissors Change`: `s_Step == 4`. -/
def branchScissors (d : Int) (s : BenchState) : BenchState :=
  if s.s_Step = 4 then
    { s with s_TimingsSMSRScissors := s.s_TimingsSMSRScissors ++ [d] }
  else s

/-- Lines 354-367, `// ... Color Change`: `s_Step == 5`. -/
def branchColor (d : Int) (s : BenchState) : BenchState :=
  if s.s_Step = 5 then
    { s with s_TimingsSMSRColor := s.s_TimingsSMSRColor ++ [d] }
  else s

/-- The `for` loop of lines 376-381: `n` iterations, `w` the running
`whatever` flag (initially `false`), each iteration calling
`glDepthFunc(whatever ? GL_EQUAL : GL_NOTEQUAL)` and drawing. -/
def depthLoop : Nat → Bool → BenchState → BenchState
  | 0, _, s => s
  | n + 1, w, s =>
      depthLoop n (!w) { s with depthFunc := if w then GL_EQUAL else GL_NOTEQUAL }

/-- Lines 370-386 body, `// ... Depth Test Change`, parametrised by the
instance count `n` (the source uses `k_Instances`): `glEnable(GL_DEPTH_TEST)`,
the timed loop, `push_back` of the duration, `glDisable(GL_DEPTH_TEST)`. -/
def depthScenarioBody (n : Nat) (d : Int) (s : BenchState) : BenchState :=
  let s1 := { s with depthTestEnabled := true }
  let s2 := depthLoop n false s1
  let s3 := { s2 with s_TimingsSMSRDepth := s2.s_TimingsSMSRDepth ++ [d] }
  { s3 with depthTestEnabled := false }

/-- Lines 370-386 guard: `s_Step == 6`. -/
def branchDepth (d : Int) (s : BenchState) : BenchState :=
  if s.s_Step = 6 then depthScenarioBody k_Instances d s else s

/-- The `for` loop of lines 395-399: iteration index `i` is tracked
because `glStencilFunc(whatever ? GL_INCR_WRAP : GL_DECR_WRAP, i % 256, 0xFF)`
uses it. -/
def stencilLoop : Nat → Nat → Bool → BenchState → BenchState
  | 0, _, _, s => s
  | n + 1, i, w, s =>
      stencilLoop n (i + 1) (!w)
        { s with stencilFunc := (if w then GL_INCR_WRAP else GL_DECR_WRAP, i % 256, 0xFF) }

/-- Lines 389-405 body, `// ... Stencil Change`, parametrised by the
instance count `n`: `glEnable(GL_STENCIL_TEST)`, the timed loop,
`push_back`, `glDisable(GL_STENCIL_TEST)`. -/
def stencilScenarioBody (n : Nat) (d : Int) (s : BenchState) : BenchState :=
  let s1 := { s with stencilTestEnabled := true }
  let s2 := stencilLoop n 0 false s1
  let s3 := { s2 with s_TimingsSMSRStencil := s2.s_TimingsSMSRStencil ++ [d] }
  { s3 with stencilTestEnabled := false }

/-- Lines 389-405 guard: `s_Step == 7`. -/
def branchStencil (d : Int) (s : BenchState) : BenchState :=
  if s.s_Step = 7 then stencilScenarioBody k_Instances d s else s

/-- Lines 407-422, `// ... Shader Change`: `s_Step == 8`. -/
def branchShader (d : Int) (s : BenchState) : BenchState :=
  if s.s_Step = 8 then
    { s with s_TimingsSMSRShader := s.s_TimingsSMSRShader ++ [d] }
  else s

/-! ### The statistics flush (lines 424-463) -/

/-- `sort(b.begin(), b.end())`: ascending in-place sort of a buffer. -/
def sortAsc (l : List Int) : List Int := l.mergeSort (· ≤ ·)

/-- The keys of the `LOGI` format string of line 439, in order. -/
def scenarioNames : List String :=
  ["O", "0CP", "SMSR", "SMDR", "DM", "SMSRScissors", "SMSRColor",
   "SMSRDepth", "SMSRStencil", "SMSRShader"]

/-- The log line of lines 439-450: `n = k_Instances` followed by each
buffer sorted and read at `medianIndex = s_StatCount >> 1`, where
`s_StatCount` has just been incremented to `k_MaxStatCount`.  Indexing
is `vector::operator[]` (unchecked); `getD _ 0` totalises it, and the
in-bounds theorems below show the default is never taken on reachable
states. -/
def flushLine (c : Nat) (s : BenchState) : List (String × Int) :=
  let medianIndex := c >>> 1
  ("n", (k_Instances : Int)) ::
    scenarioNames.zip ((buffers s).map fun b => (sortAsc b).getD medianIndex 0)

/-- Lines 424-463, `// Flush Statistics`: on an `s_Step == 9` frame the
source evaluates `++s_StatCount == k_MaxStatCount` (the increment
happens on every such frame, short-circuited behind `s_Step == 9`);
when the incremented count reaches `k_MaxStatCount` it sorts every
buffer, emits the median log line, clears every buffer and resets
`s_StatCount` to 0.  The in-place sorts are observable only through the
emitted line, since the buffers are cleared immediately after. -/
def branchFlush (s : BenchState) : BenchState :=
  if s.s_Step = 9 then
    let c := s.s_StatCount + 1
    if c = k_MaxStatCount then
      { s with
        s_StatCount := 0
        s_TimingsO := []
        s_TimingsOCP := []
        s_TimingsSMSR := []
        s_TimingsSMDR := []
        s_TimingsDM := []
        s_TimingsSMSRScissors := []
        s_TimingsSMSRColor := []
        s_TimingsSMSRDepth := []
        s_TimingsSMSRStencil := []
        s_TimingsSMSRShader := []
        log := flushLine c s :: s.log }
    else { s with s_StatCount := c }
  else s

/-! ### `renderFrame` (lines 220-466) -/

/-- One call of `renderFrame`, with `d1` the duration the clock reports
for the frame's first timed region and `d2` for the second (used only
when `s_Step = 0`, where the `Draw Once` and `Draw Once, Re-Copy
Indices` blocks both run).  The untimed per-frame setup and the warm-up
draw (lines 264-276) touch no embedded state.  Line 465 advances
`s_Step` by one modulo `cycleLength` at the end of every frame. -/
def renderFrame (d1 d2 : Int) (s : BenchState) : BenchState :=
  let s1 := branchO d1 s
  let s2 := branchOCP d2 s1
  let s3 := branchSMSR d1 s2
  let s4 := branchSMDR d1 s3
  let s5 := branchDM d1 s4
  let s6 := branchScissors d1 s5
  let s7 := branchColor d1 s6
  let s8 := branchDepth d1 s7
  let s9 := branchStencil d1 s8
  let s10 := branchShader d1 s9
  let s11 := branchFlush s10
  { s11 with s_Step := (s11.s_Step + 1) % cycleLength }

/-- The states reachable by calling `step()` (= `renderFrame`) any
number of times from process start, with arbitrary measured durations. -/
inductive Reach : BenchState → Prop
  | init : Reach initState
  | step (d1 d2 : Int) {s : BenchState} (h : Reach s) : Reach (renderFrame d1 d2 s)

/-- `n` frames from process start with all measured durations zero. -/
def runN : Nat → BenchState
  | 0 => initState
  | n + 1 => renderFrame 0 0 (runN n)

/-- A frame for every element of `ds`, in order, from process start. -/
def runList (ds : List (Int × Int)) : BenchState :=
  ds.foldl (fun s d => renderFrame d.1 d.2 s) initState


/-! ### Derived notions used by the verification -/

/-- The value of the depth-function register after `n` iterations of the
loop of lines 376-381 starting with `whatever = w`. -/
def depthFuncAfter : Nat → Bool → Nat → Nat
  | 0, _, f => f
  | n + 1, w, _ => depthFuncAfter n (!w) (if w then GL_EQUAL else GL_NOTEQUAL)

/-- The value of the stencil-function register after `n` iterations of
the loop of lines 395-399, starting at index `i` with `whatever = w`. -/
def stencilFuncAfter : Nat → Nat → Bool → (Nat × Nat × Nat) → (Nat × Nat × Nat)
  | 0, _, _, f => f
  | n + 1, i, w, _ =>
      stencilFuncAfter n (i + 1) (!w) (if w then GL_INCR_WRAP else GL_DECR_WRAP, i % 256, 0xFF)

/-- Number of sample buffers that grew during one frame taking `pre` to
`post`: "how many scenarios' buffers did this frame append to". -/
def buffersAppended (pre post : BenchState) : Nat :=
  ((buffers pre).zip (buffers post)).countP fun p => decide (p.1.length < p.2.length)

/-- The `s_Step` guard value of each of the ten timed scenario blocks of
lines 279-422, in source order.  The first two blocks (`Draw Once` and
`Draw Once, Re-Copy Indices`) share the guard value `0`. -/
def scenarioTriggers : List Nat := [0, 0, 1, 2, 3, 4, 5, 6, 7, 8]

/-- The number of timed drawing scenarios: one per sample buffer. -/
def numDrawingScenarios : Nat := (buffers initState).length

/-- Modelled from the spec: the reference median reduction the spec
demands the flush agree with — "after ascending sort the emitted value
equals the element at index `len >> 1`", `len` being the length of the
buffer being reduced. -/
def specMedian (l : List Int) : Int := (sortAsc l).getD (l.length >>> 1) 0

/-- Expected length of a buffer guarded by `s_Step == v`: one sample per
completed cycle since the last flush, plus one more if the current frame
position has already passed `v`. -/
def bufLen (s : BenchState) (v : Nat) : Nat :=
  s.s_StatCount + (if v < s.s_Step then 1 else 0)

/-- Inductive invariant of the benchmark driver. -/
def BenchInv (s : BenchState) : Prop :=
  s.s_Step < 10 ∧ s.s_StatCount < 100 ∧
  s.s_TimingsO.length = bufLen s 0 ∧
  s.s_TimingsOCP.length = bufLen s 0 ∧
  s.s_TimingsSMSR.length = bufLen s 1 ∧
  s.s_TimingsSMDR.length = bufLen s 2 ∧
  s.s_TimingsDM.length = bufLen s 3 ∧
  s.s_TimingsSMSRScissors.length = bufLen s 4 ∧
  s.s_TimingsSMSRColor.length = bufLen s 5 ∧
  s.s_TimingsSMSRDepth.length = bufLen s 6 ∧
  s.s_TimingsSMSRStencil.length = bufLen s 7 ∧
  s.s_TimingsSMSRShader.length = bufLen s 8 ∧
  s.depthTestEnabled = false ∧ s.stencilTestEnabled = false

instance : DecidablePred BenchInv := fun s => by unfold BenchInv; infer_instance

/-- A concrete pre-flush state: flush-scenario frame position, ninety-nine
completed cycles, every buffer full with one hundred samples. -/
def preFlushState : BenchState :=
  { initState with
    s_Step := 9
    s_StatCount := 99
    s_TimingsO := List.replicate 100 7
    s_TimingsOCP := List.replicate 100 6
    s_TimingsSMSR := List.replicate 100 5
    s_TimingsSMDR := List.replicate 100 4
    s_TimingsDM := List.replicate 100 3
    s_TimingsSMSRScissors := List.replicate 100 2
    s_TimingsSMSRColor := List.replicate 100 1
    s_TimingsSMSRDepth := List.replicate 100 0
    s_TimingsSMSRStencil := List.replicate 100 8
    s_TimingsSMSRShader := List.replicate 100 9 }

/-! ### GraphicsSetup: `setupGraphics` over an abstract GL driver

`loadShader`, `createProgram` and `setupGraphics` call into the GL
driver and the source only branches on what the driver reports, so the
driver is an oracle record.  Shader objects are keyed by their
`(shaderType, source)` pair and program objects by their source pair;
`malloc` for the info-log buffers is assumed to succeed. -/

/-- The GL-driver capability `setupGraphics` relies on. -/
structure GLDriver where
  createShader : Nat → String → Nat
  compileOk : Nat → String → Bool
  shaderInfoLogLen : Nat → String → Nat
  shaderInfoLog : Nat → String → String
  createProgramHandle : String → String → Nat
  linkOk : Nat → Bool
  progInfoLogLen : Nat → Nat
  progInfoLog : Nat → String
  attribLoc : Nat → String → Int
  uniformLoc : Nat → String → Int

/-- The vertex shader source of lines 45-50 (braces elided). -/
def glVertexShader : String :=
  "attribute vec4 vPosition; void main() gl_Position = vPosition;"

/-- The first fragment shader source, lines 54-60. -/
def glFragmentShader : String :=
  "precision mediump float; uniform lowp vec4 fColor; void main() gl_FragColor = fColor;"

/-- The second fragment shader source, lines 62-68. -/
def glFragmentShader2 : String :=
  "precision mediump float; uniform lowp vec4 fColor; void main() gl_FragColor = fColor.brga;"

/-- `loadShader` (lines 72-106).  Returns the shader handle the source
would return together with the `LOGE` lines it emits.  Note the source
only deletes and zeroes a failed shader inside `if (infoLen)`: a failed
compilation whose info log is empty returns the nonzero handle. -/
def loadShader (drv : GLDriver) (shaderType : Nat) (shaderSource : String) :
    Nat × List String :=
  let shader := drv.createShader shaderType shaderSource
  if shader ≠ 0 then
    if drv.compileOk shaderType shaderSource = false then
      if drv.shaderInfoLogLen shaderType shaderSource ≠ 0 then
        (0, ["Could not Compile Shader: " ++ drv.shaderInfoLog shaderType shaderSource])
      else
        (shader, [])
    else (shader, [])
  else (shader, [])

/-- `createProgram` (lines 110-159).  Unlike `loadShader`, a link
failure deletes and zeroes the program outside `if (bufLength)`. -/
def createProgram (drv : GLDriver) (vertexSource fragmentSource : String) :
    Nat × List String :=
  let vr := loadShader drv GL_VERTEX_SHADER vertexSource
  if vr.1 = 0 then (0, vr.2)
  else
    let fr := loadShader drv GL_FRAGMENT_SHADER fragmentSource
    if fr.1 = 0 then (0, vr.2 ++ fr.2)
    else
      let program := drv.createProgramHandle vertexSource fragmentSource
      if program ≠ 0 then
        if drv.linkOk program then (program, vr.2 ++ fr.2)
        else
          let linkLogs :=
            if drv.progInfoLogLen program ≠ 0 then
              ["Could not link program: " ++ drv.progInfoLog program]
            else []
          (0, vr.2 ++ fr.2 ++ linkLogs)
      else (program, vr.2 ++ fr.2)

/-- What `setupGraphics` leaves behind: its return value, the `LOGE`
lines emitted below it, and the globals of lines 163-166. -/
structure SetupResult where
  ok : Bool
  logs : List String
  simpleTriangleProgram : Nat
  simpleTriangleProgram2 : Nat
  vPosition : Int
  fColor : Int
deriving DecidableEq

/-- `setupGraphics` (lines 168-193).  Faithful to the source, the
"secondary" locations `vPosition2` / `fColor2` of lines 182-183 are
queried on `simpleTriangleProgram`, not on `simpleTriangleProgram2`. -/
def setupGraphics (drv : GLDriver) (w h : Int) : SetupResult :=
  let pr := createProgram drv glVertexShader glFragmentShader
  if pr.1 = 0 then
    { ok := false
      logs := pr.2 ++ ["Could not create program"]
      simpleTriangleProgram := 0
      simpleTriangleProgram2 := 0
      vPosition := 0
      fColor := 0 }
  else
    let vP := drv.attribLoc pr.1 "vPosition"
    let fC := drv.uniformLoc pr.1 "fColor"
    let pr2 := createProgram drv glVertexShader glFragmentShader2
    let vPosition2 := drv.attribLoc pr.1 "vPosition"
    let fColor2 := drv.uniformLoc pr.1 "fColor"
    let mismatchLogs :=
      if vP ≠ vPosition2 ∨ fC ≠ fColor2 then ["BENCHMARK *** SHADER 2 ERROR"] else []
    { ok := true
      logs := pr.2 ++ pr2.2 ++ mismatchLogs
      simpleTriangleProgram := pr.1
      simpleTriangleProgram2 := pr2.1
      vPosition := vP
      fColor := fC }

/-- A driver on which everything succeeds, but the secondary program
resolves `vPosition` / `fColor` to different locations than the primary
program does (primary program handle 1, secondary handle 2). -/
def mismatchDriver : GLDriver :=
  { createShader := fun _ _ => 1
    compileOk := fun _ _ => true
    shaderInfoLogLen := fun _ _ => 0
    shaderInfoLog := fun _ _ => ""
    createProgramHandle := fun _ f => if f = glFragmentShader2 then 2 else 1
    linkOk := fun _ => true
    progInfoLogLen := fun _ => 0
    progInfoLog := fun _ => ""
    attribLoc := fun p _ => if p = 2 then 7 else 0
    uniformLoc := fun p _ => if p = 2 then 8 else 1 }

/-- A driver that reports a failed compilation, with a nonempty info
log, for the second fragment shader only. -/
def fragment2FailDriver : GLDriver :=
  { createShader := fun _ _ => 1
    compileOk := fun _ src => !(src == glFragmentShader2)
    shaderInfoLogLen := fun _ _ => 1
    shaderInfoLog := fun _ _ => "syntax error"
    createProgramHandle := fun _ _ => 1
    linkOk := fun _ => true
    progInfoLogLen := fun _ => 0
    progInfoLog := fun _ => ""
    attribLoc := fun _ _ => 0
    uniformLoc := fun _ _ => 0 }

/-- A driver that reports a failed compilation, with a nonempty info
log, for the vertex shader. -/
def vertexFailDriver : GLDriver :=
  { createShader := fun _ _ => 1
    compileOk := fun ty _ => !(ty == GL_VERTEX_SHADER)
    shaderInfoLogLen := fun _ _ => 1
    shaderInfoLog := fun _ _ => "bad vertex shader"
    createProgramHandle := fun _ _ => 1
    linkOk := fun _ => true
    progInfoLogLen := fun _ => 0
    progInfoLog := fun _ => ""
    attribLoc := fun _ _ => 0
    uniformLoc := fun _ _ => 0 }

/-! ### Helper lemmas: loop characterisations -/

theorem depthLoop_eq (n : Nat) (w : Bool) (s : BenchState) :
    depthLoop n w s = { s with depthFunc := depthFuncAfter n w s.depthFunc } := by
  induction n generalizing w s with
  | zero => rfl
  | succ n ih => simp [depthLoop, depthFuncAfter, ih]

theorem stencilLoop_eq (n i : Nat) (w : Bool) (s : BenchState) :
    stencilLoop n i w s = { s with stencilFunc := stencilFuncAfter n i w s.stencilFunc } := by
  induction n generalizing i w s with
  | zero => rfl
  | succ n ih => simp [stencilLoop, stencilFuncAfter, ih]

/-! ### Helper lemmas: what each branch leaves untouched -/

theorem branchO_keeps (d : Int) (s : BenchState) :
    (branchO d s).s_Step = s.s_Step ∧ (branchO d s).s_StatCount = s.s_StatCount ∧
    (branchO d s).log = s.log ∧ (branchO d s).depthTestEnabled = s.depthTestEnabled ∧
    (branchO d s).stencilTestEnabled = s.stencilTestEnabled := by
  unfold branchO; split <;> simp

theorem branchOCP_keeps (d : Int) (s : BenchState) :
    (branchOCP d s).s_Step = s.s_Step ∧ (branchOCP d s).s_StatCount = s.s_StatCount ∧
    (branchOCP d s).log = s.log ∧ (branchOCP d s).depthTestEnabled = s.depthTestEnabled ∧
    (branchOCP d s).stencilTestEnabled = s.stencilTestEnabled := by
  unfold branchOCP; split <;> simp

theorem branchSMSR_keeps (d : Int) (s : BenchState) :
    (branchSMSR d s).s_Step = s.s_Step ∧ (branchSMSR d s).s_StatCount = s.s_StatCount ∧
    (branchSMSR d s).log = s.log ∧ (branchSMSR d s).depthTestEnabled = s.depthTestEnabled ∧
    (branchSMSR d s).stencilTestEnabled = s.stencilTestEnabled := by
  unfold branchSMSR; split <;> simp

theorem branchSMDR_keeps (d : Int) (s : BenchState) :
    (branchSMDR d s).s_Step = s.s_Step ∧ (branchSMDR d s).s_StatCount = s.s_StatCount ∧
    (branchSMDR d s).log = s.log ∧ (branchSMDR d s).depthTestEnabled = s.depthTestEnabled ∧
    (branchSMDR d s).stencilTestEnabled = s.stencilTestEnabled := by
  unfold branchSMDR; split <;> simp

theorem branchDM_keeps (d : Int) (s : BenchState) :
    (branchDM d s).s_Step = s.s_Step ∧ (branchDM d s).s_StatCount = s.s_StatCount ∧
    (branchDM d s).log = s.log ∧ (branchDM d s).depthTestEnabled = s.depthTestEnabled ∧
    (branchDM d s).stencilTestEnabled = s.stencilTestEnabled := by
  unfold branchDM; split <;> simp

theorem branchScissors_keeps (d : Int) (s : BenchState) :
    (branchScissors d s).s_Step = s.s_Step ∧
    (branchScissors d s).s_StatCount = s.s_StatCount ∧
    (branchScissors d s).log = s.log ∧
    (branchScissors d s).depthTestEnabled = s.depthTestEnabled ∧
    (branchScissors d s).stencilTestEnabled = s.stencilTestEnabled := by
  unfold branchScissors; split <;> simp

theorem branchColor_keeps (d : Int) (s : BenchState) :
    (branchColor d s).s_Step = s.s_Step ∧ (branchColor d s).s_StatCount = s.s_StatCount ∧
    (branchColor d s).log = s.log ∧ (branchColor d s).depthTestEnabled = s.depthTestEnabled ∧
    (branchColor d s).stencilTestEnabled = s.stencilTestEnabled := by
  unfold branchColor; split <;> simp

theorem branchDepth_keeps (d : Int) (s : BenchState) :
    (branchDepth d s).s_Step = s.s_Step ∧ (branchDepth d s).s_StatCount = s.s_StatCount ∧
    (branchDepth d s).log = s.log ∧
    (branchDepth d s).stencilTestEnabled = s.stencilTestEnabled := by
  unfold branchDepth
  split <;> simp [depthScenarioBody, depthLoop_eq]

theorem branchStencil_keeps (d : Int) (s : BenchState) :
    (branchStencil d s).s_Step = s.s_Step ∧
    (branchStencil d s).s_StatCount = s.s_StatCount ∧
    (branchStencil d s).log = s.log ∧
    (branchStencil d s).depthTestEnabled = s.depthTestEnabled := by
  unfold branchStencil
  split <;> simp [stencilScenarioBody, stencilLoop_eq]

theorem branchShader_keeps (d : Int) (s : BenchState) :
    (branchShader d s).s_Step = s.s_Step ∧
    (branchShader d s).s_StatCount = s.s_StatCount ∧
    (branchShader d s).log = s.log ∧
    (branchShader d s).depthTestEnabled = s.depthTestEnabled ∧
    (branchShader d s).stencilTestEnabled = s.stencilTestEnabled := by
  unfold branchShader; split <;> simp

theorem branchFlush_s_Step (s : BenchState) : (branchFlush s).s_Step = s.s_Step := by
  unfold branchFlush; split <;> simp [apply_ite BenchState.s_Step]

theorem renderFrame_s_Step (d1 d2 : Int) (s : BenchState) :
    (renderFrame d1 d2 s).s_Step = (s.s_Step + 1) % cycleLength := by
  simp [renderFrame, branchFlush_s_Step, branchO_keeps, branchOCP_keeps,
    branchSMSR_keeps, branchSMDR_keeps, branchDM_keeps, branchScissors_keeps,
    branchColor_keeps, branchDepth_keeps, branchStencil_keeps, branchShader_keeps]

/-! ### Helper lemmas: frame characterisations -/

theorem renderFrame_keeps_of_ne9 (d1 d2 : Int) (s : BenchState) (h : ¬ s.s_Step = 9) :
    (renderFrame d1 d2 s).s_StatCount = s.s_StatCount ∧
    (renderFrame d1 d2 s).log = s.log := by
  constructor <;>
    simp [renderFrame, branchFlush, branchO_keeps, branchOCP_keeps, branchSMSR_keeps,
      branchSMDR_keeps, branchDM_keeps, branchScissors_keeps, branchColor_keeps,
      branchDepth_keeps, branchStencil_keeps, branchShader_keeps, h]

theorem renderFrame_flush_eq (d1 d2 : Int) (s : BenchState) (h9 : s.s_Step = 9)
    (h100 : s.s_StatCount + 1 = k_MaxStatCount) :
    renderFrame d1 d2 s =
      { s with
        s_Step := 0, s_StatCount := 0,
        s_TimingsO := [], s_TimingsOCP := [], s_TimingsSMSR := [], s_TimingsSMDR := [],
        s_TimingsDM := [], s_TimingsSMSRScissors := [], s_TimingsSMSRColor := [],
        s_TimingsSMSRDepth := [], s_TimingsSMSRStencil := [], s_TimingsSMSRShader := [],
        log := flushLine k_MaxStatCount s :: s.log } := by
  simp [renderFrame, branchO, branchOCP, branchSMSR, branchSMDR, branchDM, branchScissors,
    branchColor, branchDepth, branchStencil, branchShader, branchFlush, h9, h100,
    cycleLength]

theorem renderFrame_step9_noflush_eq (d1 d2 : Int) (s : BenchState) (h9 : s.s_Step = 9)
    (hne : ¬ s.s_StatCount + 1 = k_MaxStatCount) :
    renderFrame d1 d2 s = { s with s_Step := 0, s_StatCount := s.s_StatCount + 1 } := by
  simp [renderFrame, branchO, branchOCP, branchSMSR, branchSMDR, branchDM, branchScissors,
    branchColor, branchDepth, branchStencil, branchShader, branchFlush, h9, hne,
    cycleLength]

/-! ### The invariant holds on every reachable state -/

theorem inv_initState : BenchInv initState := by decide

set_option maxHeartbeats 1600000 in
theorem inv_renderFrame (d1 d2 : Int) (s : BenchState) (h : BenchInv s) :
    BenchInv (renderFrame d1 d2 s) := by
  obtain ⟨h0, h1, hO, hOCP, hSMSR, hSMDR, hDM, hSc, hCo, hDe, hSt, hSh, hd, hs⟩ := h
  obtain ⟨step, c, tO, tOCP, tSMSR, tSMDR, tDM, tSc, tCo, tDe, tSt, tSh, lg, dt, st, df, sf⟩ := s
  simp only [bufLen] at hO hOCP hSMSR hSMDR hDM hSc hCo hDe hSt hSh
  simp only at h0 h1 hd hs
  interval_cases step <;>
    simp_all [BenchInv, bufLen, renderFrame, branchO, branchOCP, branchSMSR, branchSMDR,
      branchDM, branchScissors, branchColor, branchDepth, branchStencil,
      branchShader, branchFlush, depthScenarioBody, stencilScenarioBody,
      depthLoop_eq, stencilLoop_eq, cycleLength, k_MaxStatCount, k_Instances] <;>
    (try (split_ifs <;> simp_all)) <;>
    omega

theorem reach_inv {s : BenchState} (h : Reach s) : BenchInv s := by
  induction h with
  | init => exact inv_initState
  | step d1 d2 _ ih => exact inv_renderFrame _ _ _ ih

theorem reach_runN (n : Nat) : Reach (runN n) := by
  induction n with
  | zero => exact Reach.init
  | succ n ih => exact Reach.step 0 0 ih

/-! ### How many buffers one frame appends to -/

set_option maxHeartbeats 1600000 in
theorem buffersAppended_renderFrame (d1 d2 : Int) (s : BenchState) (h : s.s_Step < 10) :
    buffersAppended s (renderFrame d1 d2 s) = scenarioTriggers.count s.s_Step := by
  obtain ⟨step, c, tO, tOCP, tSMSR, tSMDR, tDM, tSc, tCo, tDe, tSt, tSh, lg, dt, st, df, sf⟩ := s
  simp only at h
  interval_cases step <;>
    simp_all [buffersAppended, buffers, scenarioTriggers, List.count, renderFrame,
      branchO, branchOCP, branchSMSR, branchSMDR, branchDM, branchScissors,
      branchColor, branchDepth, branchStencil, branchShader, branchFlush,
      depthScenarioBody, stencilScenarioBody, depthLoop_eq, stencilLoop_eq,
      k_MaxStatCount, k_Instances, List.countP_cons, List.countP_nil] <;>
    (try (split_ifs <;> simp_all))

/-! ### The cycle counter over a run -/

theorem runList_go_s_Step (ds : List (Int × Int)) :
    ∀ s : BenchState, s.s_Step < cycleLength →
      (ds.foldl (fun t d => renderFrame d.1 d.2 t) s).s_Step =
        (s.s_Step + ds.length) % cycleLength := by
  induction ds with
  | nil =>
      intro s h
      simp only [List.foldl_nil, List.length_nil, Nat.add_zero]
      simp only [cycleLength] at *
      omega
  | cons d ds ih =>
      intro s h
      simp only [List.foldl_cons, List.length_cons]
      rw [ih _ (by rw [renderFrame_s_Step]; exact Nat.mod_lt _ (by simp [cycleLength])),
        renderFrame_s_Step]
      simp only [cycleLength] at *
      omega

/-! ## The claims -/

/-- C1 counterexample: on the very first frame (`s_Step = 0`, reachable
as the initial state) the `Draw Once` and `Draw Once, Re-Copy Indices`
blocks both execute, appending to two different sample buffers, so the
scenario branches guarded by the current `s_Step` value are not mutually
exclusive and a single `step()` call appends to more than one
SampleBuffer. -/
theorem c1_counterexample :
    Reach initState ∧ buffersAppended initState (renderFrame 3 4 initState) = 2 :=
  ⟨Reach.init, by decide⟩

/-- C1 (amended): branches guarded by distinct `s_Step` values are
mutually exclusive, but the two blocks guarded by `s_Step == 0` share a
frame: a frame at step 0 appends to exactly two sample buffers
(`s_TimingsO` and `s_TimingsOCP`), a frame at steps 1..8 to exactly one,
and the flush frame (step 9) to none. -/
theorem c1_scenario_branches (s : BenchState) (d1 d2 : Int) (h : s.s_Step < 10) :
    buffersAppended s (renderFrame d1 d2 s) =
      if s.s_Step = 0 then 2 else if s.s_Step ≤ 8 then 1 else 0 := by
  rw [buffersAppended_renderFrame d1 d2 s h]
  generalize hv : s.s_Step = v at h
  interval_cases v <;> decide

/-- C1 witness: the amended branch-count law evaluated on the initial
state. -/
theorem c1_scenario_branches_witness :
    buffersAppended initState (renderFrame 1 2 initState) =
      if initState.s_Step = 0 then 2 else if initState.s_Step ≤ 8 then 1 else 0 :=
  c1_scenario_branches initState 1 2 (by decide)

/-- C2 counterexample: there are ten timed drawing scenarios (one per
sample buffer), yet the modulus by which the frame cycle counter wraps
is 10, not 10 + 1. -/
theorem c2_counterexample : cycleLength ≠ numDrawingScenarios + 1 := by decide

/-- C2 (amended): the cycle length equals the number of *distinct*
scenario guard values (nine drawing steps, the first two of the ten
drawing scenarios sharing guard value 0) plus one flush scenario; the
trigger table has one entry per sample buffer and governs exactly how
many buffers each frame appends to. -/
theorem c2_cycle_length (s : BenchState) (d1 d2 : Int) (h : s.s_Step < 10) :
    cycleLength = scenarioTriggers.dedup.length + 1 ∧
    scenarioTriggers.length = numDrawingScenarios ∧
    buffersAppended s (renderFrame d1 d2 s) = scenarioTriggers.count s.s_Step :=
  ⟨by decide, by decide, buffersAppended_renderFrame d1 d2 s h⟩

/-- C2 witness: the amended cycle-length law evaluated on the initial
state. -/
theorem c2_cycle_length_witness :
    cycleLength = scenarioTriggers.dedup.length + 1 ∧
    scenarioTriggers.length = numDrawingScenarios ∧
    buffersAppended initState (renderFrame 5 6 initState) =
      scenarioTriggers.count initState.s_Step :=
  c2_cycle_length initState 5 6 (by decide)

/-- C3: at flush time (a step-9 frame whose incremented `s_StatCount`
reaches the capacity, every buffer holding `k_MaxStatCount` samples) the
emitted log line carries, for every scenario keyed by its name, exactly
the reference value: the element at index `len >> 1` of the buffer after
ascending sort, `len` being the buffer's length. -/
theorem c3_flush_median (s : BenchState) (d1 d2 : Int) (h9 : s.s_Step = 9)
    (hc : s.s_StatCount + 1 = k_MaxStatCount)
    (hlen : ∀ b ∈ buffers s, b.length = k_MaxStatCount) :
    (renderFrame d1 d2 s).log =
      (("n", (k_Instances : Int)) :: scenarioNames.zip ((buffers s).map specMedian))
        :: s.log := by
  rw [renderFrame_flush_eq d1 d2 s h9 hc]
  have hmap : (buffers s).map (fun b => (sortAsc b).getD (k_MaxStatCount >>> 1) 0) =
      (buffers s).map specMedian :=
    List.map_congr_left fun b hb => by rw [specMedian, hlen b hb]
  simp only [flushLine, hmap]

/-- C3 witness: the median law evaluated on a concrete full pre-flush
state. -/
theorem c3_flush_median_witness :
    (renderFrame 0 0 preFlushState).log =
      (("n", (k_Instances : Int)) ::
        scenarioNames.zip ((buffers preFlushState).map specMedian))
        :: preFlushState.log :=
  c3_flush_median preFlushState 0 0 (by decide) (by decide) (by decide)

/-- C4: `s_StatCount` is incremented exactly on step-9 frames; while it
stays below the capacity nothing else happens (log and buffers
unchanged), and on the frame where it reaches `k_MaxStatCount` exactly
one log line with every scenario's median is emitted, every buffer is
cleared, and the counter is reset to zero. -/
theorem c4_flush_behavior (s : BenchState) (d1 d2 : Int) :
    (¬ s.s_Step = 9 →
      (renderFrame d1 d2 s).s_StatCount = s.s_StatCount ∧
      (renderFrame d1 d2 s).log = s.log) ∧
    (s.s_Step = 9 → ¬ s.s_StatCount + 1 = k_MaxStatCount →
      (renderFrame d1 d2 s).s_StatCount = s.s_StatCount + 1 ∧
      (renderFrame d1 d2 s).log = s.log ∧
      buffers (renderFrame d1 d2 s) = buffers s) ∧
    (s.s_Step = 9 → s.s_StatCount + 1 = k_MaxStatCount →
      (renderFrame d1 d2 s).s_StatCount = 0 ∧
      (renderFrame d1 d2 s).log = flushLine k_MaxStatCount s :: s.log ∧
      ∀ b ∈ buffers (renderFrame d1 d2 s), b = []) := by
  refine ⟨fun h => renderFrame_keeps_of_ne9 d1 d2 s h, fun h9 hne => ?_, fun h9 h100 => ?_⟩
  · rw [renderFrame_step9_noflush_eq d1 d2 s h9 hne]
    simp [buffers]
  · rw [renderFrame_flush_eq d1 d2 s h9 h100]
    simp [buffers]

/-- C4 witness: the flush behaviour evaluated on a concrete full
pre-flush state. -/
theorem c4_flush_behavior_witness :
    (renderFrame 1 1 preFlushState).s_StatCount = 0 ∧
    (renderFrame 1 1 preFlushState).log =
      flushLine k_MaxStatCount preFlushState :: preFlushState.log ∧
    ∀ b ∈ buffers (renderFrame 1 1 preFlushState), b = [] :=
  (c4_flush_behavior preFlushState 1 1).2.2 (by decide) (by decide)

/-- C5: on every reachable state no sample buffer ever holds more than
`k_MaxStatCount` samples, and on the frame that flushes, every buffer's
length is exactly 0 afterwards. -/
theorem c5_buffer_bounds (s : BenchState) (h : Reach s) :
    (∀ b ∈ buffers s, b.length ≤ k_MaxStatCount) ∧
    (∀ d1 d2 : Int, s.s_Step = 9 → s.s_StatCount + 1 = k_MaxStatCount →
      ∀ b ∈ buffers (renderFrame d1 d2 s), b.length = 0) := by
  obtain ⟨h0, h1, hO, hOCP, hSMSR, hSMDR, hDM, hSc, hCo, hDe, hSt, hSh, -, -⟩ :=
    reach_inv h
  constructor
  · intro b hb
    have key : ∀ v : Nat, bufLen s v ≤ 100 := by
      intro v; unfold bufLen; split <;> omega
    simp only [buffers, List.mem_cons, List.not_mem_nil, or_false] at hb
    unfold k_MaxStatCount
    rcases hb with rfl | rfl | rfl | rfl | rfl | rfl | rfl | rfl | rfl | rfl <;>
      simp only [hO, hOCP, hSMSR, hSMDR, hDM, hSc, hCo, hDe, hSt, hSh] <;>
      apply key
  · intro d1 d2 h9 h100 b hb
    rw [renderFrame_flush_eq d1 d2 s h9 h100] at hb
    simp [buffers] at hb
    simp [hb]

set_option maxRecDepth 8000 in
/-- C5 witness: the buffer bounds evaluated on the reachable state after
nineteen frames. -/
theorem c5_buffer_bounds_witness :
    (∀ b ∈ buffers (runN 19), b.length ≤ k_MaxStatCount) ∧
    (∀ d1 d2 : Int, (runN 19).s_Step = 9 → (runN 19).s_StatCount + 1 = k_MaxStatCount →
      ∀ b ∈ buffers (renderFrame d1 d2 (runN 19)), b.length = 0) :=
  c5_buffer_bounds (runN 19) (reach_runN 19)

/-- C6 code bug: on a driver where the secondary program resolves
`vPosition` / `fColor` to locations different from the primary's,
`setupGraphics` still succeeds without emitting the
`BENCHMARK *** SHADER 2 ERROR` diagnostic, because lines 182-183 query
`glGetAttribLocation`/`glGetUniformLocation` on `simpleTriangleProgram`
(the primary) instead of `simpleTriangleProgram2`, so the validation
compares the primary program with itself and can never detect a
mismatch. -/
theorem c6_secondary_location_check_vacuous :
    (setupGraphics mismatchDriver 1080 1920).ok = true ∧
    mismatchDriver.attribLoc
        (setupGraphics mismatchDriver 1080 1920).simpleTriangleProgram2 "vPosition" ≠
      mismatchDriver.attribLoc
        (setupGraphics mismatchDriver 1080 1920).simpleTriangleProgram "vPosition" ∧
    mismatchDriver.uniformLoc
        (setupGraphics mismatchDriver 1080 1920).simpleTriangleProgram2 "fColor" ≠
      mismatchDriver.uniformLoc
        (setupGraphics mismatchDriver 1080 1920).simpleTriangleProgram "fColor" ∧
    "BENCHMARK *** SHADER 2 ERROR" ∉ (setupGraphics mismatchDriver 1080 1920).logs := by
  decide

/-- C7 counterexample: on a driver where the second fragment shader's
compilation fails (with a nonempty info log), the diagnostic is logged
yet `setupGraphics` still returns success — a shader stage reported as
failed does not make the operation return failure. -/
theorem c7_counterexample :
    fragment2FailDriver.compileOk GL_FRAGMENT_SHADER glFragmentShader2 = false ∧
    ("Could not Compile Shader: syntax error") ∈
      (setupGraphics fragment2FailDriver 1080 1920).logs ∧
    (setupGraphics fragment2FailDriver 1080 1920).ok = true := by
  decide

/-- C7 (amended): restricted to the primary program's stages, and to
failures whose driver-reported info-log length is nonzero (a failed
compilation with an empty info log keeps the nonzero shader handle,
lines 88-101), `setupGraphics` logs the driver-supplied diagnostic and
returns failure; compilation failures of the secondary program's stages
never affect the return value. -/
theorem c7_primary_compile_failure (drv : GLDriver) (w h : Int) :
    (drv.createShader GL_VERTEX_SHADER glVertexShader ≠ 0 →
     drv.compileOk GL_VERTEX_SHADER glVertexShader = false →
     drv.shaderInfoLogLen GL_VERTEX_SHADER glVertexShader ≠ 0 →
     (setupGraphics drv w h).ok = false ∧
     ("Could not Compile Shader: " ++ drv.shaderInfoLog GL_VERTEX_SHADER glVertexShader) ∈
       (setupGraphics drv w h).logs) ∧
    (drv.createShader GL_VERTEX_SHADER glVertexShader ≠ 0 →
     drv.compileOk GL_VERTEX_SHADER glVertexShader = true →
     drv.createShader GL_FRAGMENT_SHADER glFragmentShader ≠ 0 →
     drv.compileOk GL_FRAGMENT_SHADER glFragmentShader = false →
     drv.shaderInfoLogLen GL_FRAGMENT_SHADER glFragmentShader ≠ 0 →
     (setupGraphics drv w h).ok = false ∧
     ("Could not Compile Shader: " ++ drv.shaderInfoLog GL_FRAGMENT_SHADER glFragmentShader) ∈
       (setupGraphics drv w h).logs) := by
  constructor
  · intro h1 h2 h3
    simp [setupGraphics, createProgram, loadShader, h1, h2, h3]
  · intro h1 h2 h3 h4 h5
    simp [setupGraphics, createProgram, loadShader, h1, h2, h3, h4, h5]

/-- C7 witness: the amended failure law evaluated on a concrete driver
whose vertex shader fails to compile. -/
theorem c7_primary_compile_failure_witness :
    (setupGraphics vertexFailDriver 640 480).ok = false ∧
    ("Could not Compile Shader: " ++
        vertexFailDriver.shaderInfoLog GL_VERTEX_SHADER glVertexShader) ∈
      (setupGraphics vertexFailDriver 640 480).logs :=
  (c7_primary_compile_failure vertexFailDriver 640 480).1 (by decide) (by decide) (by decide)

/-- C8: the frame cycle counter after any sequence of `step()` calls
from the initial state equals the number of calls modulo the cycle
length; it advances by exactly one modulo the cycle length on every
frame, and always stays inside `[0, cycleLength)`. -/
theorem c8_cycle_counter :
    (∀ ds : List (Int × Int), (runList ds).s_Step = ds.length % cycleLength) ∧
    (∀ (s : BenchState) (d1 d2 : Int),
      (renderFrame d1 d2 s).s_Step = (s.s_Step + 1) % cycleLength) ∧
    (∀ ds : List (Int × Int), (runList ds).s_Step < cycleLength) := by
  refine ⟨fun ds => ?_, fun s d1 d2 => renderFrame_s_Step d1 d2 s, fun ds => ?_⟩
  · have h := runList_go_s_Step ds initState (by decide)
    simpa [runList, initState] using h
  · have h := runList_go_s_Step ds initState (by decide)
    rw [runList] at *
    rw [h]
    exact Nat.mod_lt _ (by decide)

/-- C9: on every reachable state the depth and stencil tests are
disabled at frame boundaries; for any instance count `n` the
depth-function-change and stencil-function-change scenario bodies end
with their test disabled again, and enablement holds throughout the
timed loop. -/
theorem c9_depth_stencil_restore (n : Nat) (w : Bool) (d : Int) (s : BenchState)
    (h : Reach s) :
    s.depthTestEnabled = false ∧ s.stencilTestEnabled = false ∧
    (depthScenarioBody n d s).depthTestEnabled = false ∧
    (stencilScenarioBody n d s).stencilTestEnabled = false ∧
    (depthLoop n w { s with depthTestEnabled := true }).depthTestEnabled = true ∧
    (stencilLoop n 0 w { s with stencilTestEnabled := true }).stencilTestEnabled = true := by
  obtain ⟨-, -, -, -, -, -, -, -, -, -, -, -, hd, hs⟩ := reach_inv h
  refine ⟨hd, hs, ?_, ?_, ?_, ?_⟩ <;>
    simp [depthScenarioBody, stencilScenarioBody, depthLoop_eq, stencilLoop_eq]

/-- C9 witness: the depth/stencil restore law evaluated at instance
count three on the initial state. -/
theorem c9_depth_stencil_restore_witness :
    initState.depthTestEnabled = false ∧ initState.stencilTestEnabled = false ∧
    (depthScenarioBody 3 0 initState).depthTestEnabled = false ∧
    (stencilScenarioBody 3 0 initState).stencilTestEnabled = false ∧
    (depthLoop 3 false { initState with depthTestEnabled := true }).depthTestEnabled = true ∧
    (stencilLoop 3 0 false
      { initState with stencilTestEnabled := true }).stencilTestEnabled = true :=
  c9_depth_stencil_restore 3 false 0 initState Reach.init

/-- C10: on every reachable flush-scenario frame (step 9) each of the
ten timing buffers holds exactly `s_StatCount + 1` samples, so on the
frame where the counter reaches the capacity every buffer holds exactly
`k_MaxStatCount = 100` samples and the median index
`k_MaxStatCount >> 1 = 50` is strictly within the bounds of every
sorted buffer. -/
theorem c10_flush_in_bounds (s : BenchState) (h : Reach s) (h9 : s.s_Step = 9) :
    (∀ b ∈ buffers s, b.length = s.s_StatCount + 1) ∧
    (s.s_StatCount + 1 = k_MaxStatCount →
      ∀ b ∈ buffers s, (s.s_StatCount + 1) >>> 1 < (sortAsc b).length) := by
  obtain ⟨h0, h1, hO, hOCP, hSMSR, hSMDR, hDM, hSc, hCo, hDe, hSt, hSh, -, -⟩ :=
    reach_inv h
  have hall : ∀ b ∈ buffers s, b.length = s.s_StatCount + 1 := by
    intro b hb
    have key : ∀ v : Nat, v < 9 → bufLen s v = s.s_StatCount + 1 := by
      intro v hv; unfold bufLen; rw [h9]; simp [hv]
    simp only [buffers, List.mem_cons, List.not_mem_nil, or_false] at hb
    rcases hb with rfl | rfl | rfl | rfl | rfl | rfl | rfl | rfl | rfl | rfl <;>
      simp only [hO, hOCP, hSMSR, hSMDR, hDM, hSc, hCo, hDe, hSt, hSh] <;>
      exact key _ (by omega)
  refine ⟨hall, fun h100 b hb => ?_⟩
  have hsort : (sortAsc b).length = b.length := by
    simp [sortAsc, List.length_mergeSort]
  rw [hsort, hall b hb, h100]
  decide

set_option maxRecDepth 8000 in
/-- C10 witness: the in-bounds law evaluated on the reachable
flush-scenario state after nine frames. -/
theorem c10_flush_in_bounds_witness :
    (∀ b ∈ buffers (runN 9), b.length = (runN 9).s_StatCount + 1) ∧
    ((runN 9).s_StatCount + 1 = k_MaxStatCount →
      ∀ b ∈ buffers (runN 9), ((runN 9).s_StatCount + 1) >>> 1 < (sortAsc b).length) :=
  c10_flush_in_bounds (runN 9) (reach_runN 9) (by decide)
